import Mathlib

/-!
Verification development for the Ishmael Insights API Python client
(`src/ishmael_insights_api/client.py` and `errors.py`).

The embedding is shallow: Python/JSON values become the inductive `JVal`,
an HTTP response becomes `HttpResp` (status, reason phrase, and a body
that either parsed as JSON or is raw text), and the network is an oracle:
each modelled operation receives the response(s) the server would give
and returns both the list of query-parameter mappings it transmitted and
its result.  Exceptions become `Except`: `IshmaelInsightsAPIError` is
`ApiError`, and `ValueError` / API errors raised by `get_games` are the
two constructors of `PyErr`.
-/

/-- A Python/JSON value as the client sees it: strings, integers,
booleans, `None`/null, lists and dicts (association lists, keys unique
in practice since they come from JSON objects / dict literals). -/
inductive JVal where
  | str (s : String)
  | num (n : Int)
  | bool (b : Bool)
  | null
  | arr (xs : List JVal)
  | obj (fields : List (String × JVal))

/-- Python truthiness on `JVal`: `None`, `""`, `0`, `False`, `[]`, `{}`
are falsy, everything else truthy. -/
def jfalsy : JVal → Bool
  | .str s => s = ""
  | .num n => n = 0
  | .bool b => !b
  | .null => true
  | .arr xs => xs.isEmpty
  | .obj fs => fs.isEmpty

/-- Models `dict.get(k)` on a JSON object; `none` on any non-dict value. -/
def jget : JVal → String → Option JVal
  | .obj fs, k => fs.lookup k
  | _, _ => none

/-- Collapses a Python `x or ...` operand: a missing key or a falsy value
falls through to the next alternative. -/
def truthyOpt : Option JVal → Option JVal
  | some v => if jfalsy v then none else some v
  | none => none

/-- Models `isinstance(item, dict)`. -/
def isDict : JVal → Bool
  | .obj _ => true
  | _ => false

/-- Models `isinstance(items, list)`: the list of elements when the value is a
JSON array, else `none`. -/
def asList : Option JVal → Option (List JVal)
  | some (.arr xs) => some xs
  | _ => none

/-- Python `str.strip()` with no argument: remove leading and trailing
whitespace characters. -/
def pyStrip (s : String) : String :=
  String.mk (((s.data.dropWhile Char.isWhitespace).reverse.dropWhile
    Char.isWhitespace).reverse)

/-- Python `s[:n]`: the first `n` characters. -/
def pyTake (s : String) (n : Nat) : String := String.mk (s.data.take n)

/-- Python `str.lower()` (ASCII case mapping; every character the client
compares against is ASCII). -/
def pyLower (s : String) : String := String.mk (s.data.map Char.toLower)

/-- A single-quote character, for Python `repr` of strings. -/
def sQuote : String := String.singleton (Char.ofNat 39)

/-- Python `repr` on `JVal` (string escaping inside quotes is not
modelled; no claim evaluates `repr` on strings containing quotes). -/
def pyRepr : JVal → String
  | .str s => sQuote ++ s ++ sQuote
  | .num n => toString n
  | .bool b => if b then "True" else "False"
  | .null => "None"
  | .arr xs => "[" ++ String.intercalate ", " (xs.attach.map (fun x => pyRepr x.1)) ++ "]"
  | .obj fs =>
      "\x7b" ++
        String.intercalate ", "
          (fs.attach.map (fun p => sQuote ++ p.1.1 ++ sQuote ++ ": " ++ pyRepr p.1.2)) ++
      "\x7d"
  decreasing_by
    · simp_wf
      obtain ⟨v, hv⟩ := x
      have h := List.sizeOf_lt_of_mem hv
      simp only [] at h ⊢
      omega
    · simp_wf
      obtain ⟨⟨a, b⟩, hp⟩ := p
      have h := List.sizeOf_lt_of_mem hp
      simp only [Prod.mk.sizeOf_spec] at h ⊢
      omega

/-- Python `str` on `JVal`: identity on strings, `repr`-like otherwise. -/
def pyStr : JVal → String
  | .str s => s
  | v => pyRepr v

/-- What the HTTP layer handed back: either the body parsed as JSON
(`response.json()` succeeded) or the raw text of a non-JSON body. -/
inductive RespBody where
  | json (v : JVal)
  | text (s : String)

/-- An HTTP response: status code, reason phrase, body. -/
structure HttpResp where
  status : Nat
  reason : String
  body : RespBody

/-- Models `IshmaelInsightsAPIError(status_code, message, payload)` from
`errors.py`. -/
structure ApiError where
  status_code : Nat
  message : String
  payload : JVal

/-- Models `str(payload.get("error") or payload.get("message") or message)` for a
dict payload. -/
def deriveMessage (fs : List (String × JVal)) (fallback : String) : String :=
  match truthyOpt (fs.lookup "error") with
  | some v => pyStr v
  | none =>
    match truthyOpt (fs.lookup "message") with
    | some v => pyStr v
    | none => fallback

/-- The payload / message pair computed by `_request` from the response
body (client.py lines 119-128): try JSON, deriving the message from
`error` / `message` fields of a dict body; on decode failure fall back to
the raw text, truncated to 200 characters for the message when non-blank. -/
def decodeBody (body : RespBody) (reason : String) : JVal × String :=
  match body with
  | .json v =>
    match v with
    | .obj fs => (.obj fs, deriveMessage fs reason)
    | other => (other, reason)
  | .text s => (.str s, if pyStrip s ≠ "" then pyTake s 200 else reason)

/-- Models `IshmaelInsightsAPI._request` after the transport returned `resp`
(client.py lines 119-135): raise `IshmaelInsightsAPIError` on status ≥ 400,
return a dict payload as-is, and wrap any other payload as
`{"ok": True, "raw": payload}`. -/
def _request (resp : HttpResp) : Except ApiError JVal :=
  let pm := decodeBody resp.body resp.reason
  if resp.status ≥ 400 then
    .error ⟨resp.status, pm.2, pm.1⟩
  else
    match pm.1 with
    | .obj fs => .ok (.obj fs)
    | other => .ok (.obj [("ok", .bool true), ("raw", other)])

/-- Models `{k: v for k, v in (params or {}).items() if v is not None}`
(client.py line 114): the query parameters actually transmitted. -/
def sendParams (params : List (String × Option JVal)) : List (String × JVal) :=
  params.filterMap (fun kv => kv.2.map (fun v => (kv.1, v)))

/-- The argument forms `_csv` accepts: a raw string or an iterable of
values (`str | Iterable[Any]`). -/
inductive CsvIn where
  | s (v : String)
  | l (vs : List JVal)

/-- Models `_csv` (client.py lines 62-69): `None` passes through; a string is
stripped, empty becoming `None`; an iterable becomes the comma-join of
its entries' stripped `str` forms with empty entries dropped, `None` when
nothing remains. -/
def _csv : Option CsvIn → Option String
  | none => none
  | some (.s v) =>
    let t := pyStrip v
    if t = "" then none else some t
  | some (.l vs) =>
    let out := (vs.map (fun v => pyStrip (pyStr v))).filter (fun t => t ≠ "")
    if out.isEmpty then none else some (String.intercalate "," out)

/-- A Python `datetime.date`: year in 1..9999, month in 1..12, day valid
for the month. -/
structure Date where
  year : Nat
  month : Nat
  day : Nat

/-- Days from 1970-01-01 to the given civil date (the standard
days-from-civil computation used by `datetime.timestamp`). -/
def daysFromCivil (dt : Date) : Int :=
  let y := if dt.month ≤ 2 then dt.year - 1 else dt.year
  let era := y / 400
  let yoe := y % 400
  let mp := (dt.month + 9) % 12
  let doy := (153 * mp + 2) / 5 + dt.day - 1
  let doe := yoe * 365 + yoe / 4 - yoe / 100 + doy
  (era * 146097 + doe : Int) - 719468

/-- Seconds from the epoch to 00:00:00 UTC of the given civil date. -/
def dayEpochUTC (dt : Date) : Int := 86400 * daysFromCivil dt

/-- The IANA zone database as the model sees it: a zone name resolves to
`none` (ZoneInfo raises: unknown zone) or to the zone's UTC-offset
function, mapping a wall-clock instant (naive local time read as seconds
since the epoch) to the zone's UTC offset in seconds at that local time.
`timestamp()` of an aware datetime is then wall-clock minus offset. -/
def TZDB : Type := String → Option (Int → Int)

/-- Models `_local_day_epoch_bounds` (client.py lines 50-59): resolve the zone
(default `"UTC"`, falling back to UTC — offset zero — when `ZoneInfo`
raises), then return the timestamps of local `00:00:00` on the day and of
local `23:59:59` (midnight plus one day minus one second in wall-clock
arithmetic) on the same day. -/
def _local_day_epoch_bounds (tzdb : TZDB) (day : Date) (timezone_name : Option String) :
    Int × Int :=
  let tz := timezone_name.getD "UTC"
  let off := (tzdb tz).getD (fun _ => 0)
  let startNaive := dayEpochUTC day
  let endNaive := startNaive + 86400 - 1
  (startNaive - off startNaive, endNaive - off endNaive)

/-- Zero-pads a number to the given width, for ISO dates. -/
def padNum (width n : Nat) : String :=
  let s := toString n
  String.mk (List.replicate (width - s.length) (Char.ofNat 48)) ++ s

/-- Models `date.isoformat()`: `YYYY-MM-DD`. -/
def dateIso (dt : Date) : String :=
  padNum 4 dt.year ++ "-" ++ padNum 2 dt.month ++ "-" ++ padNum 2 dt.day

/-- A `start_date` / `end_date` argument as typed in `get_games`:
a string, an integer timestamp, or a date. -/
inductive TimeVal where
  | s (v : String)
  | i (n : Int)
  | d (dt : Date)

/-- Models `_isoish` (client.py lines 16-21) on the modelled argument forms:
dates via `isoformat()`, everything else via `str`. -/
def isoish : TimeVal → String
  | .s v => v
  | .i n => toString n
  | .d dt => dateIso dt

/-- The `params` dict literal of `get_games` (client.py lines 258-268),
with each value already normalized to an optional transmitted `JVal`. -/
def gamesParams (league gd tz sd ed ti lim mv cur : Option JVal) :
    List (String × Option JVal) :=
  [("league", league), ("game_date", gd), ("timezone", tz),
   ("start_date", sd), ("end_date", ed), ("team_ids", ti),
   ("limit", lim), ("min_volume", mv), ("cursor", cur)]

/-- An exception escaping `get_games` / `iter_games`: a `ValueError`
from argument validation, or an `IshmaelInsightsAPIError`. -/
inductive PyErr where
  | valueError (msg : String)
  | apiError (e : ApiError)

/-- The substring the backward-compat fallback looks for in the lowercased
error message (client.py line 280). -/
def boundsNeedle : String := "start_date and end_date"

/-- Python's `needle in hay` on character lists: some suffix of `hay`
starts with `needle`. -/
def hasSub (needle : List Char) : List Char → Bool
  | [] => needle.isEmpty
  | c :: t => needle.isPrefixOf (c :: t) || hasSub needle t

/-- Models `"start_date and end_date" in str(exc.message).lower()`. -/
def mentionsBounds (msg : String) : Bool :=
  hasSub boundsNeedle.toList (pyLower msg).toList

/-- Models `IshmaelInsightsAPI.get_games` (client.py lines 242-292).  `resp1` is
the server's answer to the first `/games` request and `resp2` its answer
to the fallback retry (unused when no retry happens).  Returns the list
of transmitted query-parameter mappings (one entry per HTTP request
issued) together with the result: validation failure raises `ValueError`
before any request; a 400 error mentioning `start_date and end_date` on a
day-only query triggers exactly one retry with the day's epoch bounds
substituted for `game_date`/`timezone`; any other error is re-raised. -/
def get_games (tzdb : TZDB) (league : String) (game_date : Option Date)
    (timezone : Option String) (start_date end_date : Option TimeVal)
    (team_ids : Option CsvIn) (limit : Option Int) (min_volume : Option JVal)
    (cursor : Option JVal) (resp1 resp2 : HttpResp) :
    List (List (String × JVal)) × Except PyErr JVal :=
  if game_date.isNone && (start_date.isNone || end_date.isNone) then
    ([], .error (.valueError "Provide game_date OR both start_date and end_date"))
  else
    let params := gamesParams (some (.str league))
      (game_date.map (fun d => .str (dateIso d))) (timezone.map .str)
      (start_date.map (fun v => .str (isoish v)))
      (end_date.map (fun v => .str (isoish v)))
      ((_csv team_ids).map .str) (limit.map .num) min_volume cursor
    match _request resp1 with
    | .ok v => ([sendParams params], .ok v)
    | .error e =>
      match game_date with
      | some day =>
        if start_date.isNone && end_date.isNone && e.status_code == 400
            && mentionsBounds e.message then
          let b := _local_day_epoch_bounds tzdb day timezone
          let fparams := gamesParams (some (.str league)) none none
            (some (.num b.1)) (some (.num b.2))
            ((_csv team_ids).map .str) (limit.map .num) min_volume cursor
          ([sendParams params, sendParams fparams],
           (_request resp2).mapError .apiError)
        else ([sendParams params], .error (.apiError e))
      | none => ([sendParams params], .error (.apiError e))

/-- How an iteration over pages ended: normal termination (`done`), an
exception escaping mid-iteration (`failed`), or the response oracle ran
out before the client stopped asking (`more`: the client would issue a
further request). -/
inductive IterEnd where
  | done
  | failed (e : PyErr)
  | more

/-- Models `params = dict(base_params); params["limit"] = page_limit;
params["cursor"] = next_cursor` (client.py lines 147-149); the iterator
callers never put `limit`/`cursor` in `base_params`, so the dict update
appends. -/
def withPaging (base : List (String × Option JVal)) (page_limit : Int)
    (cursor : Option JVal) : List (String × Option JVal) :=
  base ++ [("limit", some (.num page_limit)), ("cursor", cursor)]

/-- The loop of `IshmaelInsightsAPI._iter_items` (client.py lines
145-161), driven by the oracle list of responses (one per `/` request the
generator issues, in order).  Returns the transmitted query-parameter
mappings of the requests issued, the yielded items (dict items unchanged,
others wrapped as `{"value": item}`), and how the iteration ended: stop
silently when `items` is absent or not a list, yield the page, then stop
when `next_cursor` is absent or falsy and otherwise continue with it as
the next request's cursor. -/
def iterItemsGo (base : List (String × Option JVal)) (page_limit : Int) :
    Option JVal → List HttpResp →
    List (List (String × JVal)) × List JVal × IterEnd
  | _, [] => ([], [], .more)
  | cur, r :: rs =>
    let sent := sendParams (withPaging base page_limit cur)
    match _request r with
    | .error e => ([sent], [], .failed (.apiError e))
    | .ok payload =>
      match asList (jget payload "items") with
      | none => ([sent], [], .done)
      | some items =>
        let ys := items.map (fun item =>
          if isDict item then item else .obj [("value", item)])
        match truthyOpt (jget payload "next_cursor") with
        | none => ([sent], ys, .done)
        | some c =>
          let rest := iterItemsGo base page_limit (some c) rs
          (sent :: rest.1, ys ++ rest.2.1, rest.2.2)

/-- Models `IshmaelInsightsAPI._iter_items` (client.py lines 137-161) from its
entry point: the initial cursor is the caller's optional string cursor. -/
def _iter_items (base : List (String × Option JVal)) (page_limit : Int)
    (cursor : Option String) (responses : List HttpResp) :
    List (List (String × JVal)) × List JVal × IterEnd :=
  iterItemsGo base page_limit (cursor.map .str) responses

/-- The loop of `IshmaelInsightsAPI.iter_games` (client.py lines
310-333): each page is fetched through `get_games` (so each page may use
up to two oracle responses when the day-bounds fallback fires), and the
page/termination handling is identical to `_iter_items`. -/
def iterGamesGo (tzdb : TZDB) (league : String) (game_date : Option Date)
    (timezone : Option String) (start_date end_date : Option TimeVal)
    (team_ids : Option CsvIn) (min_volume : Option JVal) (page_limit : Int) :
    Option JVal → List (HttpResp × HttpResp) → List JVal × IterEnd
  | _, [] => ([], .more)
  | cur, (r1, r2) :: rest =>
    match (get_games tzdb league game_date timezone start_date end_date
        team_ids (some page_limit) min_volume cur r1 r2).2 with
    | .error e => ([], .failed e)
    | .ok payload =>
      match asList (jget payload "items") with
      | none => ([], .done)
      | some items =>
        let ys := items.map (fun item =>
          if isDict item then item else .obj [("value", item)])
        match truthyOpt (jget payload "next_cursor") with
        | none => (ys, .done)
        | some c =>
          let r := iterGamesGo tzdb league game_date timezone start_date
            end_date team_ids min_volume page_limit (some c) rest
          (ys ++ r.1, r.2)

/-- Models `IshmaelInsightsAPI.iter_games` (client.py lines 294-333): the same
`game_date`-versus-range validation as `get_games` runs before any page
is requested; then pages are iterated from the caller's cursor. -/
def iter_games (tzdb : TZDB) (league : String) (game_date : Option Date)
    (timezone : Option String) (start_date end_date : Option TimeVal)
    (team_ids : Option CsvIn) (min_volume : Option JVal) (page_limit : Int)
    (cursor : Option JVal) (oracle : List (HttpResp × HttpResp)) :
    Except PyErr (List JVal × IterEnd) :=
  if game_date.isNone && (start_date.isNone || end_date.isNone) then
    .error (.valueError "Provide game_date OR both start_date and end_date")
  else
    .ok (iterGamesGo tzdb league game_date timezone start_date end_date
      team_ids min_volume page_limit cursor oracle)

/-- C4: for every response with HTTP status ≥ 400 whose body parses as a
JSON object containing `"error": "bad key"`, `_request` raises an
`IshmaelInsightsAPIError` whose message equals `"bad key"`, whose payload
equals the parsed JSON body and whose status code equals the HTTP status;
and on any status ≥ 400 no value is returned (an error is always raised). -/
theorem c4_error_object_message (st : Nat) (reason : String)
    (fs : List (String × JVal)) (hst : 400 ≤ st)
    (herr : fs.lookup "error" = some (.str "bad key")) :
    _request ⟨st, reason, .json (.obj fs)⟩ = .error ⟨st, "bad key", .obj fs⟩
    ∧ ∀ r : HttpResp, 400 ≤ r.status → ∃ e, _request r = .error e := by
  constructor
  · simp [_request, decodeBody, deriveMessage, herr, truthyOpt, jfalsy, pyStr, hst]
  · intro r hr
    refine ⟨⟨r.status, (decodeBody r.body r.reason).2, (decodeBody r.body r.reason).1⟩, ?_⟩
    simp [_request, hr]

/-- C4 witness at a concrete 403 response. -/
theorem c4_witness :
    _request ⟨403, "Forbidden",
        .json (.obj [("error", .str "bad key"), ("detail", .num 1)])⟩ =
      .error ⟨403, "bad key", .obj [("error", .str "bad key"), ("detail", .num 1)]⟩ :=
  (c4_error_object_message 403 "Forbidden"
    [("error", .str "bad key"), ("detail", .num 1)] (by decide) (by rfl)).1

/-- C5: for every response with HTTP status ≥ 400 whose body is not valid
JSON, the raised error's message is the body text truncated to at most
200 characters and its payload is the raw body string; when the body is
empty or whitespace-only the message falls back to the reason phrase. -/
theorem c5_error_text_body (st : Nat) (reason s : String) (hst : 400 ≤ st) :
    (pyStrip s ≠ "" →
      _request ⟨st, reason, .text s⟩ = .error ⟨st, pyTake s 200, .str s⟩)
    ∧ (pyStrip s = "" →
      _request ⟨st, reason, .text s⟩ = .error ⟨st, reason, .str s⟩) := by
  constructor <;> intro h <;> simp [_request, decodeBody, h, hst]

/-- C5 witness at the spec's concrete body and at a whitespace body. -/
theorem c5_witness :
    _request ⟨500, "Internal Server Error", .text "plain text failure"⟩ =
      .error ⟨500, "plain text failure", .str "plain text failure"⟩
    ∧ _request ⟨500, "Internal Server Error", .text "  "⟩ =
      .error ⟨500, "Internal Server Error", .str "  "⟩ := by
  constructor
  · have h := (c5_error_text_body 500 "Internal Server Error"
      "plain text failure" (by decide)).1 (by decide)
    simpa using h
  · exact (c5_error_text_body 500 "Internal Server Error" "  " (by decide)).2 (by decide)

/-- C8: for every successful (status < 400) response, a JSON-object body
is returned as the parsed object itself, while a JSON body that is not an
object and a non-JSON body are both wrapped as `{"ok": True, "raw": body}`
(with `raw` the body text in the non-JSON case). -/
theorem c8_success_wrapping (st : Nat) (reason : String) (hst : st < 400) :
    (∀ fs, _request ⟨st, reason, .json (.obj fs)⟩ = .ok (.obj fs))
    ∧ (∀ v, isDict v = false →
        _request ⟨st, reason, .json v⟩ = .ok (.obj [("ok", .bool true), ("raw", v)]))
    ∧ (∀ s, _request ⟨st, reason, .text s⟩ =
        .ok (.obj [("ok", .bool true), ("raw", .str s)])) := by
  have hlt : ¬ (400 ≤ st) := by omega
  refine ⟨?_, ?_, ?_⟩
  · intro fs; simp [_request, decodeBody, hlt]
  · intro v hv; cases v <;> simp_all [_request, decodeBody, isDict]
  · intro s; simp [_request, decodeBody, hlt]

/-- C8 witness: a JSON array body and a non-JSON text body on status 200,
and a JSON object body returned as-is. -/
theorem c8_witness :
    _request ⟨200, "OK", .json (.arr [.num 1])⟩ =
      .ok (.obj [("ok", .bool true), ("raw", .arr [.num 1])])
    ∧ _request ⟨200, "OK", .text "pong"⟩ =
      .ok (.obj [("ok", .bool true), ("raw", .str "pong")])
    ∧ _request ⟨200, "OK", .json (.obj [("a", .null)])⟩ = .ok (.obj [("a", .null)]) :=
  ⟨(c8_success_wrapping 200 "OK" (by decide)).2.1 (.arr [.num 1]) (by rfl),
   (c8_success_wrapping 200 "OK" (by decide)).2.2 "pong",
   (c8_success_wrapping 200 "OK" (by decide)).1 [("a", .null)]⟩

/-- C6: a parameter whose value is absent (`None`) is excluded from the
transmitted query parameters, and a parameter with a present value is
transmitted with that exact value: `(k, v)` is transmitted exactly when
`(k, some v)` is in the parameter mapping. -/
theorem c6_absent_params_excluded (params : List (String × Option JVal))
    (k : String) (v : JVal) :
    (k, v) ∈ sendParams params ↔ (k, some v) ∈ params := by
  simp only [sendParams, List.mem_filterMap]
  constructor
  · rintro ⟨⟨k0, ov⟩, hmem, hmap⟩
    cases ov with
    | none => simp at hmap
    | some w =>
      simp only [Option.map_some', Option.some.injEq, Prod.mk.injEq] at hmap
      obtain ⟨hk, hw⟩ := hmap
      subst hk; subst hw
      exact hmem
  · intro hmem
    exact ⟨(k, some v), hmem, rfl⟩

/-- C9: a list-like filter value is transmitted as the comma-join of its
entries' stripped string forms with empty entries dropped; when every
entry strips to empty — or the input is a string that strips to empty —
the parameter becomes `None` and is hence omitted from the request. -/
theorem c9_csv_serialization (vs : List JVal) (s : String) :
    _csv none = none
    ∧ _csv (some (.s s)) = (if pyStrip s = "" then none else some (pyStrip s))
    ∧ ((vs.map (fun v => pyStrip (pyStr v))).filter (fun t => t ≠ "") ≠ [] →
        _csv (some (.l vs)) =
          some (String.intercalate ","
            ((vs.map (fun v => pyStrip (pyStr v))).filter (fun t => t ≠ ""))))
    ∧ ((∀ v ∈ vs, pyStrip (pyStr v) = "") → _csv (some (.l vs)) = none) := by
  refine ⟨rfl, rfl, ?_, ?_⟩
  · intro h
    simp only [_csv]
    rw [if_neg (by simpa [List.isEmpty_iff] using h)]
  · intro h
    have hnil : (vs.map (fun v => pyStrip (pyStr v))).filter (fun t => t ≠ "") = [] := by
      rw [List.filter_eq_nil_iff]
      intro a ha
      simp only [List.mem_map] at ha
      obtain ⟨v, hv, rfl⟩ := ha
      simp [h v hv]
    simp only [_csv, hnil, List.isEmpty_nil, if_pos]

/-- C9 witness: entries with surrounding whitespace and empty entries,
an all-empty list, and a whitespace-only string input. -/
theorem c9_witness :
    _csv (some (.l [.str " a ", .str "  ", .str "b"])) = some "a,b"
    ∧ _csv (some (.l [.str "  ", .str ""])) = none
    ∧ _csv (some (.s " ")) = none :=
  ⟨(c9_csv_serialization [.str " a ", .str "  ", .str "b"] " ").2.2.1 (by decide),
   (c9_csv_serialization [.str "  ", .str ""] " ").2.2.2 (by decide),
   (c9_csv_serialization [] " ").2.1⟩

/-- C10: a timezone name the zone database does not recognize makes
`_local_day_epoch_bounds` silently fall back to UTC — the result is the
UTC epoch-second boundaries of the calendar day (no error is possible:
the function is total) — so an invalid timezone only changes which
boundaries are computed. -/
theorem c10_invalid_timezone_utc_fallback (tzdb : TZDB) (day : Date)
    (tz : String) (h : tzdb tz = none) :
    _local_day_epoch_bounds tzdb day (some tz) =
      (dayEpochUTC day, dayEpochUTC day + 86399) := by
  simp only [_local_day_epoch_bounds, Option.getD_some, h, Option.getD_none, Prod.mk.injEq]
  exact ⟨by omega, by omega⟩

/-- C10 witness: an empty zone database and a made-up zone name on
2024-03-10. -/
theorem c10_witness :
    _local_day_epoch_bounds (fun _ => none) ⟨2024, 3, 10⟩ (some "Not/AZone") =
      (1710028800, 1710115199) :=
  c10_invalid_timezone_utc_fallback (fun _ => none) ⟨2024, 3, 10⟩ "Not/AZone" rfl

/-- C3: pagination requests the next page exactly while the current
response carries a present, non-empty `next_cursor` (the continuation
consumes the remaining oracle responses, with that cursor as the next
request's cursor); once `next_cursor` is absent or empty, iteration ends
with `done` after yielding that final page's items; and when the `items`
field is absent or not a list, iteration ends at once yielding nothing
from that response. -/
theorem c3_pagination_cursor (base : List (String × Option JVal))
    (page_limit : Int) (cur : Option JVal) (r : HttpResp) (rs : List HttpResp)
    (payload : JVal) (hok : _request r = .ok payload) :
    (asList (jget payload "items") = none →
      iterItemsGo base page_limit cur (r :: rs) =
        ([sendParams (withPaging base page_limit cur)], [], .done))
    ∧ (∀ items c, asList (jget payload "items") = some items →
        jget payload "next_cursor" = some (.str c) → c ≠ "" →
        iterItemsGo base page_limit cur (r :: rs) =
          (sendParams (withPaging base page_limit cur) ::
             (iterItemsGo base page_limit (some (.str c)) rs).1,
           items.map (fun item =>
             if isDict item then item else .obj [("value", item)]) ++
             (iterItemsGo base page_limit (some (.str c)) rs).2.1,
           (iterItemsGo base page_limit (some (.str c)) rs).2.2))
    ∧ (∀ items, asList (jget payload "items") = some items →
        (jget payload "next_cursor" = none ∨
         jget payload "next_cursor" = some (.str "")) →
        iterItemsGo base page_limit cur (r :: rs) =
          ([sendParams (withPaging base page_limit cur)],
           items.map (fun item =>
             if isDict item then item else .obj [("value", item)]),
           .done)) := by
  refine ⟨?_, ?_, ?_⟩
  · intro hnone
    simp [iterItemsGo, hok, hnone]
  · intro items c hitems hcur hc
    simp [iterItemsGo, hok, hitems, hcur, truthyOpt, jfalsy, hc]
  · intro items hitems hcur
    rcases hcur with h | h <;> simp [iterItemsGo, hok, hitems, h, truthyOpt, jfalsy]

/-- C3 witness: a two-page run — the first response carries cursor
`"abc"`, the second has no cursor — evaluated end to end. -/
theorem c3_witness :
    iterItemsGo [("league", some (.str "nba"))] (2 : Int) none
      [⟨200, "OK", .json (.obj [("items", .arr [.num 1, .obj [("a", .num 2)]]),
          ("next_cursor", .str "abc")])⟩,
       ⟨200, "OK", .json (.obj [("items", .arr [.str "z"])])⟩] =
      ([[("league", .str "nba"), ("limit", .num 2)],
        [("league", .str "nba"), ("limit", .num 2), ("cursor", .str "abc")]],
       [.obj [("value", .num 1)], .obj [("a", .num 2)], .obj [("value", .str "z")]],
       .done) :=
  ((c3_pagination_cursor [("league", some (.str "nba"))] 2 none
      ⟨200, "OK", .json (.obj [("items", .arr [.num 1, .obj [("a", .num 2)]]),
          ("next_cursor", .str "abc")])⟩
      [⟨200, "OK", .json (.obj [("items", .arr [.str "z"])])⟩]
      (.obj [("items", .arr [.num 1, .obj [("a", .num 2)]]),
          ("next_cursor", .str "abc")])
      rfl).2.1 [.num 1, .obj [("a", .num 2)]] "abc" rfl rfl (by decide)).trans
    (by rfl)

/-- C7: a dict item of a page is yielded unchanged and a non-dict item is
yielded wrapped as `{"value": item}`; for any successfully fetched page
whose `items` is a list, the elements the iterator yields for that page
are exactly the items transformed this way, in order, before whatever the
continuation yields. -/
theorem c7_item_wrapping (r : HttpResp) (payload : JVal) (items : List JVal)
    (base : List (String × Option JVal)) (page_limit : Int) (cur : Option JVal)
    (rs : List HttpResp) (hok : _request r = .ok payload)
    (hitems : asList (jget payload "items") = some items) :
    (∀ item : JVal, isDict item = true →
       (if isDict item then item else .obj [("value", item)]) = item)
    ∧ (∀ item : JVal, isDict item = false →
       (if isDict item then item else .obj [("value", item)]) = .obj [("value", item)])
    ∧ ∃ rest : List (List (String × JVal)) × List JVal × IterEnd,
        iterItemsGo base page_limit cur (r :: rs) =
          (sendParams (withPaging base page_limit cur) :: rest.1,
           items.map (fun item =>
             if isDict item then item else .obj [("value", item)]) ++ rest.2.1,
           rest.2.2) := by
  refine ⟨fun item h => by simp [h], fun item h => by simp [h], ?_⟩
  cases hcur : truthyOpt (jget payload "next_cursor") with
  | none => exact ⟨([], [], .done), by simp [iterItemsGo, hok, hitems, hcur]⟩
  | some c =>
    exact ⟨iterItemsGo base page_limit (some c) rs,
      by simp [iterItemsGo, hok, hitems, hcur]⟩

/-- C7 witness: a page containing one non-dict item and one dict item. -/
theorem c7_witness :
    ∃ rest : List (List (String × JVal)) × List JVal × IterEnd,
      iterItemsGo [] (5 : Int) none
        [⟨200, "OK", .json (.obj [("items", .arr [.str "x", .obj [("k", .null)]])])⟩] =
        ([("limit", JVal.num 5)] :: rest.1,
         ([.obj [("value", .str "x")], .obj [("k", .null)]] : List JVal) ++ rest.2.1,
         rest.2.2) :=
  (c7_item_wrapping
    ⟨200, "OK", .json (.obj [("items", .arr [.str "x", .obj [("k", .null)]])])⟩
    (.obj [("items", .arr [.str "x", .obj [("k", .null)]])])
    [.str "x", .obj [("k", .null)]] [] 5 none [] rfl rfl).2.2

/-- C1: when `get_games` is called with a `game_date` and no
`start_date`/`end_date` and the first `/games` request raises a status-400
error whose message mentions `start_date and end_date`, the client issues
exactly one retry in which `game_date` and `timezone` are dropped and
`start_date`/`end_date` carry the epoch-second boundaries of that calendar
day in the caller's timezone (UTC when none), and returns that retry's
result; on any other error it re-raises after the single original
request. -/
theorem c1_day_bounds_retry (tzdb : TZDB) (league : String) (day : Date)
    (timezone : Option String) (team_ids : Option CsvIn) (limit : Option Int)
    (min_volume : Option JVal) (cursor : Option JVal) (resp1 resp2 : HttpResp)
    (e : ApiError) (herr : _request resp1 = .error e) :
    (e.status_code = 400 → mentionsBounds e.message = true →
      get_games tzdb league (some day) timezone none none team_ids limit
          min_volume cursor resp1 resp2 =
        ([sendParams (gamesParams (some (.str league))
            (some (.str (dateIso day))) (timezone.map .str) none none
            ((_csv team_ids).map .str) (limit.map .num) min_volume cursor),
          sendParams (gamesParams (some (.str league)) none none
            (some (.num (_local_day_epoch_bounds tzdb day timezone).1))
            (some (.num (_local_day_epoch_bounds tzdb day timezone).2))
            ((_csv team_ids).map .str) (limit.map .num) min_volume cursor)],
         (_request resp2).mapError .apiError))
    ∧ (¬ (e.status_code = 400 ∧ mentionsBounds e.message = true) →
      get_games tzdb league (some day) timezone none none team_ids limit
          min_volume cursor resp1 resp2 =
        ([sendParams (gamesParams (some (.str league))
            (some (.str (dateIso day))) (timezone.map .str) none none
            ((_csv team_ids).map .str) (limit.map .num) min_volume cursor)],
         .error (.apiError e))) := by
  constructor
  · intro h400 hmsg
    simp [get_games, herr, h400, hmsg]
  · intro hneg
    by_cases h400 : e.status_code = 400
    · have hmsg : mentionsBounds e.message = false := by
        cases hmb : mentionsBounds e.message
        · rfl
        · exact absurd ⟨h400, hmb⟩ hneg
      simp [get_games, herr, h400, hmsg]
    · simp [get_games, herr, h400]

/-- C1 witness: a 400 answer whose message mentions the needed bounds,
followed by a successful retry, with no timezone given (UTC default). -/
theorem c1_witness :
    get_games (fun _ => none) "nba" (some ⟨2024, 3, 10⟩) none none none
        none (some 50) none none
        ⟨400, "Bad Request",
          .json (.obj [("error", .str "start_date and end_date are required")])⟩
        ⟨200, "OK", .json (.obj [("items", .arr [])])⟩ =
      ([[("league", .str "nba"), ("game_date", .str "2024-03-10"),
         ("limit", .num 50)],
        [("league", .str "nba"), ("start_date", .num 1710028800),
         ("end_date", .num 1710115199), ("limit", .num 50)]],
       .ok (.obj [("items", .arr [])])) :=
  ((c1_day_bounds_retry (fun _ => none) "nba" ⟨2024, 3, 10⟩ none none
      (some 50) none none
      ⟨400, "Bad Request",
        .json (.obj [("error", .str "start_date and end_date are required")])⟩
      ⟨200, "OK", .json (.obj [("items", .arr [])])⟩
      ⟨400, "start_date and end_date are required",
        .obj [("error", .str "start_date and end_date are required")]⟩
      rfl).1 rfl (by decide)).trans (by rfl)

/-- C2 counterexample: providing `game_date` together with a full
`start_date`/`end_date` range raises no validation error — exactly one
request is sent, its transmitted parameters carry `game_date`,
`start_date` and `end_date` together, and the call succeeds, so day and
range arguments are not mutually exclusive. -/
theorem c2_counterexample :
    get_games (fun _ => none) "nba" (some ⟨2024, 3, 10⟩) none
        (some (.i 1)) (some (.i 2)) none (some 50) none none
        ⟨200, "OK", .json (.obj [("items", .arr [])])⟩
        ⟨200, "OK", .json (.obj [("items", .arr [])])⟩ =
      ([[("league", .str "nba"), ("game_date", .str "2024-03-10"),
         ("start_date", .str "1"), ("end_date", .str "2"),
         ("limit", .num 50)]],
       .ok (.obj [("items", .arr [])])) :=
  rfl

/-- C2 amended: `get_games` and `iter_games` raise a `ValueError` before
any network request exactly when `game_date` is absent and the
`start_date`/`end_date` range is incomplete; whenever `game_date` or a
complete range is provided no validation error is raised and the request
proceeds; and when `game_date`, `start_date` and `end_date` are all
provided together, exactly one request is sent and its transmitted
parameter mapping contains all three (serialized) values. -/
theorem c2_amended_validation (tzdb : TZDB) (league : String)
    (game_date : Option Date) (timezone : Option String)
    (start_date end_date : Option TimeVal) (team_ids : Option CsvIn)
    (limit : Option Int) (min_volume : Option JVal) (cursor : Option JVal)
    (page_limit : Int) (resp1 resp2 : HttpResp)
    (oracle : List (HttpResp × HttpResp)) :
    (game_date = none ∧ (start_date = none ∨ end_date = none) →
      get_games tzdb league game_date timezone start_date end_date team_ids
          limit min_volume cursor resp1 resp2 =
        ([], .error (.valueError "Provide game_date OR both start_date and end_date"))
      ∧ iter_games tzdb league game_date timezone start_date end_date team_ids
          min_volume page_limit cursor oracle =
        .error (.valueError "Provide game_date OR both start_date and end_date"))
    ∧ (¬ (game_date = none ∧ (start_date = none ∨ end_date = none)) →
      (get_games tzdb league game_date timezone start_date end_date team_ids
          limit min_volume cursor resp1 resp2).1 ≠ []
      ∧ ∃ res, iter_games tzdb league game_date timezone start_date end_date
          team_ids min_volume page_limit cursor oracle = .ok res)
    ∧ (∀ d sv ev, game_date = some d → start_date = some sv →
        end_date = some ev →
      (get_games tzdb league game_date timezone start_date end_date team_ids
          limit min_volume cursor resp1 resp2).1 =
        [sendParams (gamesParams (some (.str league))
          (some (.str (dateIso d))) (timezone.map .str)
          (some (.str (isoish sv))) (some (.str (isoish ev)))
          ((_csv team_ids).map .str) (limit.map .num) min_volume cursor)]
      ∧ ("game_date", JVal.str (dateIso d)) ∈
          sendParams (gamesParams (some (.str league))
            (some (.str (dateIso d))) (timezone.map .str)
            (some (.str (isoish sv))) (some (.str (isoish ev)))
            ((_csv team_ids).map .str) (limit.map .num) min_volume cursor)
      ∧ ("start_date", JVal.str (isoish sv)) ∈
          sendParams (gamesParams (some (.str league))
            (some (.str (dateIso d))) (timezone.map .str)
            (some (.str (isoish sv))) (some (.str (isoish ev)))
            ((_csv team_ids).map .str) (limit.map .num) min_volume cursor)
      ∧ ("end_date", JVal.str (isoish ev)) ∈
          sendParams (gamesParams (some (.str league))
            (some (.str (dateIso d))) (timezone.map .str)
            (some (.str (isoish sv))) (some (.str (isoish ev)))
            ((_csv team_ids).map .str) (limit.map .num) min_volume cursor)) := by
  refine ⟨?_, ?_, ?_⟩
  · rintro ⟨hgd, hse⟩
    subst hgd
    rcases hse with h | h <;> subst h <;>
      exact ⟨by simp [get_games], by simp [iter_games]⟩
  · intro hc
    have hcond : ¬ ((game_date.isNone
        && (start_date.isNone || end_date.isNone)) = true) := by
      cases game_date <;> cases start_date <;> cases end_date <;> simp_all
    constructor
    · unfold get_games
      rw [if_neg hcond]
      cases h1 : _request resp1 with
      | ok v => simp [h1]
      | error e =>
        cases game_date with
        | none => simp [h1]
        | some day =>
          simp only [h1]
          split <;> simp
    · refine ⟨iterGamesGo tzdb league game_date timezone start_date end_date
        team_ids min_volume page_limit cursor oracle, ?_⟩
      unfold iter_games
      rw [if_neg hcond]
  · rintro d sv ev rfl rfl rfl
    refine ⟨?_, ?_, ?_, ?_⟩
    · cases h1 : _request resp1 with
      | ok v => simp [get_games, h1]
      | error e => simp [get_games, h1]
    · exact List.mem_filterMap.mpr
        ⟨("game_date", some (.str (dateIso d))), by simp [gamesParams], rfl⟩
    · exact List.mem_filterMap.mpr
        ⟨("start_date", some (.str (isoish sv))), by simp [gamesParams], rfl⟩
    · exact List.mem_filterMap.mpr
        ⟨("end_date", some (.str (isoish ev))), by simp [gamesParams], rfl⟩

/-- C2 amended witness: with all three arguments absent both functions
fail fast with the `ValueError`; with `game_date` 2024-03-10 and the
range 1..2 all provided, the single transmitted mapping carries
`game_date`, `start_date` and `end_date` together. -/
theorem c2_witness :
    (get_games (fun _ => none) "nba" none none none none none (some 50) none
        none ⟨200, "OK", .json (.obj [])⟩ ⟨200, "OK", .json (.obj [])⟩ =
      ([], .error (.valueError "Provide game_date OR both start_date and end_date")))
    ∧ (iter_games (fun _ => none) "nba" none none none none none none 500
        none [] =
      .error (.valueError "Provide game_date OR both start_date and end_date"))
    ∧ ((get_games (fun _ => none) "nba" (some ⟨2024, 3, 10⟩) none
        (some (.i 1)) (some (.i 2)) none (some 50) none none
        ⟨200, "OK", .json (.obj [])⟩ ⟨200, "OK", .json (.obj [])⟩).1 =
      [[("league", .str "nba"), ("game_date", .str "2024-03-10"),
        ("start_date", .str "1"), ("end_date", .str "2"), ("limit", .num 50)]])
    ∧ ("game_date", JVal.str "2024-03-10") ∈
        [("league", JVal.str "nba"), ("game_date", JVal.str "2024-03-10"),
         ("start_date", JVal.str "1"), ("end_date", JVal.str "2"),
         ("limit", JVal.num 50)]
    ∧ ("start_date", JVal.str "1") ∈
        [("league", JVal.str "nba"), ("game_date", JVal.str "2024-03-10"),
         ("start_date", JVal.str "1"), ("end_date", JVal.str "2"),
         ("limit", JVal.num 50)] :=
  ⟨((c2_amended_validation (fun _ => none) "nba" none none none none none
      (some 50) none none 500 ⟨200, "OK", .json (.obj [])⟩
      ⟨200, "OK", .json (.obj [])⟩ []).1 ⟨rfl, Or.inl rfl⟩).1,
   ((c2_amended_validation (fun _ => none) "nba" none none none none none
      (some 50) none none 500 ⟨200, "OK", .json (.obj [])⟩
      ⟨200, "OK", .json (.obj [])⟩ []).1 ⟨rfl, Or.inl rfl⟩).2,
   ((c2_amended_validation (fun _ => none) "nba" (some ⟨2024, 3, 10⟩) none
      (some (.i 1)) (some (.i 2)) none (some 50) none none 500
      ⟨200, "OK", .json (.obj [])⟩ ⟨200, "OK", .json (.obj [])⟩ []).2.2
      ⟨2024, 3, 10⟩ (.i 1) (.i 2) rfl rfl rfl).1,
   ((c2_amended_validation (fun _ => none) "nba" (some ⟨2024, 3, 10⟩) none
      (some (.i 1)) (some (.i 2)) none (some 50) none none 500
      ⟨200, "OK", .json (.obj [])⟩ ⟨200, "OK", .json (.obj [])⟩ []).2.2
      ⟨2024, 3, 10⟩ (.i 1) (.i 2) rfl rfl rfl).2.1,
   ((c2_amended_validation (fun _ => none) "nba" (some ⟨2024, 3, 10⟩) none
      (some (.i 1)) (some (.i 2)) none (some 50) none none 500
      ⟨200, "OK", .json (.obj [])⟩ ⟨200, "OK", .json (.obj [])⟩ []).2.2
      ⟨2024, 3, 10⟩ (.i 1) (.i 2) rfl rfl rfl).2.2.1⟩
